import Mathlib

/-!
Shallow embedding of the word_form_orders_agent browser client:
the session state store (src/frontend/src/lib/stores/session.ts),
the transport client (src/frontend/src/lib/api.ts), the streaming
event consumer (ChatInterface component) and the upload zone
(FileUpload component).  The embedding models machine effects
explicitly: freshly generated message ids and timestamps are
parameters supplied by the environment, HTTP responses are values,
and the single-threaded run-to-completion event loop is an inductive
step relation on the component state.
-/

namespace WordFormClient

/-- Message.role, one of user or assistant (session.ts). -/
inductive Role where
  | user
  | assistant
deriving DecidableEq, Repr

/-- Message record of session.ts: id, role, content, timestamp.
The timestamp (a JS Date) is modelled as a Nat. -/
structure Message where
  id : String
  role : Role
  content : String
  timestamp : Nat
deriving DecidableEq, Repr

/-- SessionState of session.ts: the store's six fields. -/
structure SessionState where
  sessionId : Option String
  isUploading : Bool
  isComplete : Bool
  messages : List Message
  isConnected : Bool
  error : Option String
deriving DecidableEq, Repr

/-- The writable store's initial value (session.ts, createSessionStore). -/
def initialState : SessionState :=
  { sessionId := none
  , isUploading := false
  , isComplete := false
  , messages := []
  , isConnected := false
  , error := none }

/-- setSession: sets sessionId and clears error, all other fields kept. -/
def setSession (sessionId : String) (s : SessionState) : SessionState :=
  { s with sessionId := some sessionId, error := none }

/-- setUploading: direct flag set. -/
def setUploading (isUploading : Bool) (s : SessionState) : SessionState :=
  { s with isUploading := isUploading }

/-- setComplete: direct flag set. -/
def setComplete (isComplete : Bool) (s : SessionState) : SessionState :=
  { s with isComplete := isComplete }

/-- setConnected: direct flag set. -/
def setConnected (isConnected : Bool) (s : SessionState) : SessionState :=
  { s with isConnected := isConnected }

/-- setError: sets or clears the error banner. -/
def setError (error : Option String) (s : SessionState) : SessionState :=
  { s with error := error }

/-- addMessage: appends a new Message built from the given role and
content together with the environment-supplied fresh id
(crypto.randomUUID in the source) and current timestamp (new Date). -/
def addMessage (role : Role) (content : String) (freshId : String) (now : Nat)
    (s : SessionState) : SessionState :=
  { s with messages := s.messages ++ [⟨freshId, role, content, now⟩] }

/-- reset: replaces the whole state with the initial value in one set call. -/
def reset (_ : SessionState) : SessionState :=
  { sessionId := none
  , isUploading := false
  , isComplete := false
  , messages := []
  , isConnected := false
  , error := none }

/-- A pending addMessage call: role, content, and the environment's
fresh id and timestamp for it. -/
structure AddCall where
  role : Role
  content : String
  freshId : String
  now : Nat
deriving DecidableEq, Repr

/-- The Message an addMessage call appends. -/
def callToMessage (a : AddCall) : Message :=
  ⟨a.freshId, a.role, a.content, a.now⟩

/-- Run a sequence of addMessage calls in order. -/
def applyAdds (calls : List AddCall) (s : SessionState) : SessionState :=
  calls.foldl (fun t a => addMessage a.role a.content a.freshId a.now t) s

/-! ## Transport client (api.ts) -/

/-- UploadResponse of api.ts. -/
structure UploadResponse where
  session_id : String
  message : String
deriving DecidableEq, Repr

/-- A movie entry of StatusResponse.form_data (api.ts). -/
structure MovieEntry where
  title : String
  language : String
deriving DecidableEq, Repr

/-- form_data of StatusResponse (api.ts). -/
structure FormData where
  name : Option String
  street : Option String
  postal_code_city : Option String
  country : Option String
  movies : List MovieEntry
deriving DecidableEq, Repr

/-- StatusResponse of api.ts. -/
structure StatusResponse where
  is_complete : Bool
  form_data : FormData
deriving DecidableEq, Repr

/-- An HTTP response as the transport functions observe it: the ok flag,
the detail field of the JSON error body (none when absent or null), and
the success body.  JS values that are not strings are out of the
backend interface and not modelled. -/
structure HttpResponse (α : Type) where
  ok : Bool
  detail : Option String
  body : α
deriving DecidableEq, Repr

/-- The JS expression error.detail || fallback: the detail field when
present and truthy (a non-empty string), the fallback otherwise. -/
def errDetail (detail : Option String) (fallback : String) : String :=
  match detail with
  | some d => if d = "" then fallback else d
  | none => fallback

/-- uploadDocument of api.ts: on a non-ok response, fail with the error
body's detail (fallback "Upload failed"); otherwise return the body. -/
def uploadDocument (resp : HttpResponse UploadResponse) :
    Except String UploadResponse :=
  if resp.ok = false then
    Except.error (errDetail resp.detail "Upload failed")
  else
    Except.ok resp.body

/-- sendMessage of api.ts: on a non-ok response, fail with the error
body's detail (fallback "Failed to send message"). -/
def sendMessage (resp : HttpResponse Unit) : Except String Unit :=
  if resp.ok = false then
    Except.error (errDetail resp.detail "Failed to send message")
  else
    Except.ok resp.body

/-- getStatus of api.ts: on a non-ok response, fail with the error
body's detail (fallback "Failed to get status"); otherwise return the
body. -/
def getStatus (resp : HttpResponse StatusResponse) :
    Except String StatusResponse :=
  if resp.ok = false then
    Except.error (errDetail resp.detail "Failed to get status")
  else
    Except.ok resp.body

/-! ## Streaming event consumer (ChatInterface component) -/

/-- An EventSource handle: its allocation number and the session id in
the stream URL it was opened for. -/
structure StreamHandle where
  hid : Nat
  sid : String
deriving DecidableEq, Repr

/-- The fields of a parsed stream event that the onmessage handler
reads: data.type (absent modelled as ""), data.content (none when
absent), data.is_complete (absent modelled as false, matching JS
truthiness). -/
structure EventData where
  type : String
  content : Option String
  is_complete : Bool
deriving DecidableEq, Repr

/-- JS truthiness of data.content for string-or-absent values: a
non-empty string. -/
def contentTruthy : Option String → Bool
  | some s => !(s = "")
  | none => false

/-- The ChatInterface component's state: the session store, the local
eventSource variable (never reassigned to null after a close — the JS
variable keeps pointing at the closed handle), plus bookkeeping that
records the effects the component performs on its environment: the
next fresh handle number, the ids of handles that were closed, the log
of handles opened, the delays of scheduled reconnect timers, and the
count of transport open signals the browser has delivered (the
component registers no onopen handler, so they drive no code). -/
structure ConsumerState where
  store : SessionState
  eventSource : Option StreamHandle
  nextHid : Nat
  closed : List Nat
  opens : List StreamHandle
  pendingTimers : List Nat
  openSignals : Nat
deriving DecidableEq, Repr

/-- The component's state when first instantiated. -/
def initialConsumer : ConsumerState :=
  { store := initialState
  , eventSource := none
  , nextHid := 0
  , closed := []
  , opens := []
  , pendingTimers := []
  , openSignals := 0 }

/-- connectSSE: the guard "if (!sessionId) return" tests JS truthiness,
so it returns early both when the session id is null and when it is
the (falsy) empty string; otherwise it opens a new EventSource for
that session id and sets isConnected true. -/
def connectSSE (c : ConsumerState) : ConsumerState :=
  match c.store.sessionId with
  | none => c
  | some sid =>
      if sid = "" then c
      else
        { c with
          store := setConnected true c.store
        , eventSource := some ⟨c.nextHid, sid⟩
        , nextHid := c.nextHid + 1
        , opens := c.opens ++ [⟨c.nextHid, sid⟩] }

/-- The statement "if (eventSource) eventSource.close()": closing the
current handle records its id as closed; the variable keeps its value. -/
def closeCurrent (c : ConsumerState) : ConsumerState :=
  match c.eventSource with
  | none => c
  | some h => { c with closed := c.closed ++ [h.hid] }

/-- reconnectSSE: close the current handle if any, then connect again
only if the session id is still truthy — the JS test
"if ($session.sessionId)" is false both for null and for the empty
string. -/
def reconnectSSE (c : ConsumerState) : ConsumerState :=
  let c1 := closeCurrent c
  match c1.store.sessionId with
  | some sid => if sid = "" then c1 else connectSSE c1
  | none => c1

/-- The eventSource.onmessage handler: parse the payload (none models a
JSON.parse failure, swallowed by the catch), then dispatch on
data.type: "message" with truthy content appends an assistant message
(fresh id and timestamp supplied by the environment); "done" sets
isComplete when data.is_complete is truthy and then reconnects for the
next interaction; "error" surfaces data.content; anything else is
ignored. -/
def handleStreamEvent (d : Option EventData) (freshId : String) (now : Nat)
    (c : ConsumerState) : ConsumerState :=
  match d with
  | none => c
  | some data =>
      if data.type = "message" ∧ contentTruthy data.content = true then
        { c with store :=
            addMessage Role.assistant (data.content.getD "") freshId now c.store }
      else if data.type = "done" then
        let c1 :=
          if data.is_complete then { c with store := setComplete true c.store }
          else c
        reconnectSSE c1
      else if data.type = "error" then
        { c with store := setError data.content c.store }
      else c

/-- The eventSource.onerror handler: set isConnected false and schedule
reconnectSSE after a fixed 2000 ms delay. -/
def onError (c : ConsumerState) : ConsumerState :=
  { c with
    store := setConnected false c.store
  , pendingTimers := c.pendingTimers ++ [2000] }

/-- A scheduled reconnect timer fires: the timer is consumed and
reconnectSSE runs. -/
def fireTimer (c : ConsumerState) : ConsumerState :=
  reconnectSSE { c with pendingTimers := c.pendingTimers.drop 1 }

/-- The transport delivers its open signal for the live stream; the
component registers no onopen handler, so only the count changes. -/
def fireOpen (c : ConsumerState) : ConsumerState :=
  { c with openSignals := c.openSignals + 1 }

/-- handleNewSession: close the open handle, then reset the store. -/
def handleNewSession (c : ConsumerState) : ConsumerState :=
  let c1 := closeCurrent c
  { c1 with store := reset c1.store }

/-! ## Upload zone (FileUpload component) and submit flow -/

/-- file.name.endsWith(".docx") of FileUpload, embedded over the
character-list view of strings. -/
def nameEndsWithDocx (name : String) : Bool :=
  (".docx".data).isSuffixOf name.data

/-- handleFile of FileUpload: reject (store error, no network call) any
file whose name does not end in ".docx"; otherwise set uploading,
clear the error, perform the upload (its outcome is the environment
parameter), on success setSession with the returned session_id, on
failure surface the error message, and finally clear uploading.
Returns the new store state paired with whether a network call was
made. -/
def handleFile (name : String) (result : Except String UploadResponse)
    (s : SessionState) : SessionState × Bool :=
  if nameEndsWithDocx name = false then
    (setError (some "Please upload a .docx file") s, false)
  else
    let s1 := setError none (setUploading true s)
    match result with
    | Except.ok r => (setUploading false (setSession r.session_id s1), true)
    | Except.error e => (setUploading false (setError (some e) s1), true)

/-- The synchronous part of handleSubmit in ChatInterface: the user's
message is appended optimistically before sendMessage returns. -/
def submitLocal (msg freshId : String) (now : Nat) (c : ConsumerState) :
    ConsumerState :=
  { c with store := addMessage Role.user msg freshId now c.store }

/-- The catch branch of handleSubmit: a failed sendMessage surfaces its
error message; the optimistic append is not rolled back. -/
def sendFailed (e : String) (c : ConsumerState) : ConsumerState :=
  { c with store := setError (some e) c.store }

/-- The synchronous prefix of handleFile's upload path as it acts on the
component state: setUploading(true) then setError(null). -/
def uploadBegin (c : ConsumerState) : ConsumerState :=
  { c with store := setError none (setUploading true c.store) }

/-- The success continuation of handleFile: setSession then the finally
block's setUploading(false). -/
def uploadFinishOk (sid : String) (c : ConsumerState) : ConsumerState :=
  { c with store := setUploading false (setSession sid c.store) }

/-- The failure continuation of handleFile: setError then the finally
block's setUploading(false). -/
def uploadFinishErr (e : String) (c : ConsumerState) : ConsumerState :=
  { c with store := setUploading false (setError (some e) c.store) }

/-- Dismissing the error toast: setError(null). -/
def dismissError (c : ConsumerState) : ConsumerState :=
  { c with store := setError none c.store }

/-! ## Reachable component states

One inductive step per callback the event loop can deliver, each
run-to-completion.  Stream callbacks (onmessage, onerror, onopen) fire
only for a live — opened and not yet closed — handle; the Svelte
effect opens a connection only when a session id is set and the
eventSource variable is still null; a reconnect timer fires only while
one is pending. -/
inductive Reachable : ConsumerState → Prop where
  | init : Reachable initialConsumer
  | uploadBegin {c} : Reachable c → Reachable (uploadBegin c)
  | uploadOk {c} (sid : String) : Reachable c → Reachable (uploadFinishOk sid c)
  | uploadErr {c} (e : String) : Reachable c → Reachable (uploadFinishErr e c)
  | effectConnect {c} : Reachable c → c.eventSource = none →
      Reachable (connectSSE c)
  | streamEvt {c} (d : Option EventData) (freshId : String) (now : Nat)
      (h : StreamHandle) : Reachable c → c.eventSource = some h →
      h.hid ∉ c.closed → Reachable (handleStreamEvent d freshId now c)
  | streamErr {c} (h : StreamHandle) : Reachable c →
      c.eventSource = some h → h.hid ∉ c.closed → Reachable (onError c)
  | streamOpen {c} (h : StreamHandle) : Reachable c →
      c.eventSource = some h → h.hid ∉ c.closed → Reachable (fireOpen c)
  | timer {c} : Reachable c → c.pendingTimers ≠ [] → Reachable (fireTimer c)
  | submit {c} (msg freshId : String) (now : Nat) : Reachable c →
      msg ≠ "" → c.store.sessionId ≠ none →
      Reachable (submitLocal msg freshId now c)
  | sendFail {c} (e : String) : Reachable c → Reachable (sendFailed e c)
  | dismiss {c} : Reachable c → Reachable (dismissError c)
  | newSession {c} : Reachable c → Reachable (handleNewSession c)

/-- The inductive invariant behind the completion/session property:
isComplete implies a session id is set, and a live (opened, not yet
closed) stream handle also implies a session id is set. -/
def Inv (c : ConsumerState) : Prop :=
  (c.store.isComplete = true → c.store.sessionId ≠ none)
  ∧ (∀ h : StreamHandle, c.eventSource = some h → h.hid ∉ c.closed →
      c.store.sessionId ≠ none)

/-- A concrete component state used to instantiate theorems: the state
right after a successful upload of session "s" followed by the effect
that opens the first stream connection. -/
def connectedOnce : ConsumerState :=
  connectSSE (uploadFinishOk "s" initialConsumer)

/-! ## Helper lemmas -/

theorem closeCurrent_store (c : ConsumerState) : (closeCurrent c).store = c.store := by
  cases he : c.eventSource <;> simp [closeCurrent, he]

theorem closeCurrent_eventSource (c : ConsumerState) :
    (closeCurrent c).eventSource = c.eventSource := by
  cases he : c.eventSource <;> simp [closeCurrent, he]

theorem closeCurrent_closes (c : ConsumerState) (h : StreamHandle)
    (he : c.eventSource = some h) : h.hid ∈ (closeCurrent c).closed := by
  simp [closeCurrent, he]

theorem connectSSE_sessionId (c : ConsumerState) :
    (connectSSE c).store.sessionId = c.store.sessionId := by
  cases hs : c.store.sessionId with
  | none => simp [connectSSE, hs]
  | some sid =>
      by_cases hemp : sid = "" <;> simp [connectSSE, hs, hemp, setConnected]

theorem connectSSE_of_truthy (c : ConsumerState) (sid : String)
    (hs : c.store.sessionId = some sid) (hne : ¬ (sid = "")) :
    connectSSE c =
      { c with
        store := setConnected true c.store
      , eventSource := some ⟨c.nextHid, sid⟩
      , nextHid := c.nextHid + 1
      , opens := c.opens ++ [⟨c.nextHid, sid⟩] } := by
  simp [connectSSE, hs, hne]

theorem connectSSE_of_empty (c : ConsumerState)
    (hs : c.store.sessionId = some "") : connectSSE c = c := by
  simp [connectSSE, hs]

theorem reconnectSSE_of_truthy (c : ConsumerState) (sid : String)
    (hs : c.store.sessionId = some sid) (hne : ¬ (sid = "")) :
    reconnectSSE c = connectSSE (closeCurrent c) := by
  have h1 : (closeCurrent c).store.sessionId = some sid := by
    rw [closeCurrent_store]; exact hs
  simp [reconnectSSE, h1, hne]

theorem reconnectSSE_of_none (c : ConsumerState)
    (hs : c.store.sessionId = none) :
    reconnectSSE c = closeCurrent c := by
  have h1 : (closeCurrent c).store.sessionId = none := by
    rw [closeCurrent_store]; exact hs
  simp [reconnectSSE, h1]

theorem reconnectSSE_of_empty (c : ConsumerState)
    (hs : c.store.sessionId = some "") :
    reconnectSSE c = closeCurrent c := by
  have h1 : (closeCurrent c).store.sessionId = some "" := by
    rw [closeCurrent_store]; exact hs
  simp [reconnectSSE, h1]

theorem reconnectSSE_sessionId (c : ConsumerState) :
    (reconnectSSE c).store.sessionId = c.store.sessionId := by
  cases hs : c.store.sessionId with
  | none => rw [reconnectSSE_of_none c hs, closeCurrent_store, hs]
  | some sid =>
      by_cases hemp : sid = ""
      · subst hemp
        rw [reconnectSSE_of_empty c hs, closeCurrent_store, hs]
      · rw [reconnectSSE_of_truthy c sid hs hemp, connectSSE_sessionId,
          closeCurrent_store, hs]

theorem applyAdds_messages (calls : List AddCall) (s : SessionState) :
    (applyAdds calls s).messages = s.messages ++ calls.map callToMessage := by
  induction calls generalizing s with
  | nil => simp [applyAdds]
  | cons a rest ih =>
      show (applyAdds rest
        (addMessage a.role a.content a.freshId a.now s)).messages = _
      rw [ih]
      simp [addMessage, callToMessage]

/-! ## Claims about the store -/

/-- C5: each addMessage call appends exactly one new Message, built
from the given role, content, fresh id and timestamp, at the end of
messages; existing messages are untouched, and a sequence of calls
produces exactly the corresponding messages in call order. -/
theorem addMessage_appendOnly (s : SessionState) (role : Role)
    (content freshId : String) (now : Nat) (calls : List AddCall) :
    (addMessage role content freshId now s).messages
        = s.messages ++ [⟨freshId, role, content, now⟩]
    ∧ (addMessage role content freshId now s).messages.length
        = s.messages.length + 1
    ∧ (applyAdds calls s).messages = s.messages ++ calls.map callToMessage
    ∧ (applyAdds calls s).messages.length
        = s.messages.length + calls.length := by
  refine ⟨rfl, by simp [addMessage], applyAdds_messages calls s, ?_⟩
  rw [applyAdds_messages]
  simp

/-- C6: reset replaces the whole state with exactly the initial value
(sessionId none, isUploading false, isComplete false, messages empty,
isConnected false, error none), whatever the prior state was. -/
theorem reset_yields_initial (s : SessionState) :
    reset s = initialState
    ∧ (reset s).sessionId = none
    ∧ (reset s).isUploading = false
    ∧ (reset s).isComplete = false
    ∧ (reset s).messages = []
    ∧ (reset s).isConnected = false
    ∧ (reset s).error = none :=
  ⟨rfl, rfl, rfl, rfl, rfl, rfl, rfl⟩

/-- C10: each single-flag mutation changes exactly its named field;
setSession changes exactly sessionId (to the given id) and error (to
none); in particular none of these operations touches messages, so
messages is modified only by addMessage and reset. -/
theorem store_mutation_frame (s : SessionState) (b : Bool) (sid : String)
    (e : Option String) :
    (setUploading b s).sessionId = s.sessionId
    ∧ (setUploading b s).isUploading = b
    ∧ (setUploading b s).isComplete = s.isComplete
    ∧ (setUploading b s).messages = s.messages
    ∧ (setUploading b s).isConnected = s.isConnected
    ∧ (setUploading b s).error = s.error
    ∧ (setConnected b s).sessionId = s.sessionId
    ∧ (setConnected b s).isUploading = s.isUploading
    ∧ (setConnected b s).isComplete = s.isComplete
    ∧ (setConnected b s).messages = s.messages
    ∧ (setConnected b s).isConnected = b
    ∧ (setConnected b s).error = s.error
    ∧ (setComplete b s).sessionId = s.sessionId
    ∧ (setComplete b s).isUploading = s.isUploading
    ∧ (setComplete b s).isComplete = b
    ∧ (setComplete b s).messages = s.messages
    ∧ (setComplete b s).isConnected = s.isConnected
    ∧ (setComplete b s).error = s.error
    ∧ (setError e s).sessionId = s.sessionId
    ∧ (setError e s).isUploading = s.isUploading
    ∧ (setError e s).isComplete = s.isComplete
    ∧ (setError e s).messages = s.messages
    ∧ (setError e s).isConnected = s.isConnected
    ∧ (setError e s).error = e
    ∧ (setSession sid s).sessionId = some sid
    ∧ (setSession sid s).error = none
    ∧ (setSession sid s).isUploading = s.isUploading
    ∧ (setSession sid s).isComplete = s.isComplete
    ∧ (setSession sid s).messages = s.messages
    ∧ (setSession sid s).isConnected = s.isConnected := by
  and_intros <;> rfl

/-! ## Claims about the transport client -/

/-- C8 counterexample: on a non-ok response whose JSON error body has a
present but empty detail field, uploadDocument fails with the generic
fallback message, not with the present detail value. -/
theorem uploadDocument_empty_detail :
    uploadDocument ⟨false, some "", ⟨"abc123", "ok"⟩⟩
        = Except.error "Upload failed"
    ∧ ¬ (("Upload failed" : String) = "") :=
  ⟨rfl, by decide⟩

/-- C8 (amended): each transport operation succeeds exactly on an ok
response; on a non-ok response it fails with the error body's detail
when that field is present and non-empty, and with the operation's
generic fallback message otherwise (detail absent or empty). -/
theorem transport_error_policy (ru : HttpResponse UploadResponse)
    (rs : HttpResponse Unit) (rg : HttpResponse StatusResponse) :
    (ru.ok = true → uploadDocument ru = Except.ok ru.body)
    ∧ (ru.ok = false → ∀ d : String, ru.detail = some d → ¬ (d = "") →
        uploadDocument ru = Except.error d)
    ∧ (ru.ok = false → (ru.detail = none ∨ ru.detail = some "") →
        uploadDocument ru = Except.error "Upload failed")
    ∧ (rs.ok = true → sendMessage rs = Except.ok rs.body)
    ∧ (rs.ok = false → ∀ d : String, rs.detail = some d → ¬ (d = "") →
        sendMessage rs = Except.error d)
    ∧ (rs.ok = false → (rs.detail = none ∨ rs.detail = some "") →
        sendMessage rs = Except.error "Failed to send message")
    ∧ (rg.ok = true → getStatus rg = Except.ok rg.body)
    ∧ (rg.ok = false → ∀ d : String, rg.detail = some d → ¬ (d = "") →
        getStatus rg = Except.error d)
    ∧ (rg.ok = false → (rg.detail = none ∨ rg.detail = some "") →
        getStatus rg = Except.error "Failed to get status") := by
  refine ⟨?_, ?_, ?_, ?_, ?_, ?_, ?_, ?_, ?_⟩
  · intro hok; simp [uploadDocument, hok]
  · intro hok d hd hne; simp [uploadDocument, hok, errDetail, hd, hne]
  · intro hok hd
    rcases hd with hd | hd <;> simp [uploadDocument, hok, errDetail, hd]
  · intro hok; simp [sendMessage, hok]
  · intro hok d hd hne; simp [sendMessage, hok, errDetail, hd, hne]
  · intro hok hd
    rcases hd with hd | hd <;> simp [sendMessage, hok, errDetail, hd]
  · intro hok; simp [getStatus, hok]
  · intro hok d hd hne; simp [getStatus, hok, errDetail, hd, hne]
  · intro hok hd
    rcases hd with hd | hd <;> simp [getStatus, hok, errDetail, hd]

/-- Witness for transport_error_policy at concrete responses. -/
theorem transport_error_policy_witness :
    uploadDocument ⟨false, some "boom", ⟨"x", "y"⟩⟩ = Except.error "boom"
    ∧ sendMessage ⟨true, none, ()⟩ = Except.ok ()
    ∧ getStatus ⟨false, none, ⟨false, ⟨none, none, none, none, []⟩⟩⟩
        = Except.error "Failed to get status" := by
  have h := transport_error_policy ⟨false, some "boom", ⟨"x", "y"⟩⟩
    ⟨true, none, ()⟩ ⟨false, none, ⟨false, ⟨none, none, none, none, []⟩⟩⟩
  exact ⟨h.2.1 rfl "boom" rfl (by decide), h.2.2.2.1 rfl,
    h.2.2.2.2.2.2.2.2 rfl (Or.inl rfl)⟩

/-! ## Claims about the upload zone -/

/-- C9: a file whose name does not end in ".docx" makes handleFile set
the error "Please upload a .docx file" on the store and perform no
network call; a file whose name does end in ".docx" makes it perform
the upload call, and on success the store goes through
setUploading(true), setError(null), setSession(session_id) and
setUploading(false). -/
theorem handleFile_validation (name : String)
    (r : Except String UploadResponse) (s : SessionState) :
    (nameEndsWithDocx name = false →
      handleFile name r s
        = (setError (some "Please upload a .docx file") s, false))
    ∧ (nameEndsWithDocx name = true →
        (handleFile name r s).2 = true
        ∧ ∀ resp : UploadResponse, r = Except.ok resp →
            (handleFile name r s).1
              = setUploading false
                  (setSession resp.session_id
                    (setError none (setUploading true s)))) := by
  constructor
  · intro hx
    simp [handleFile, hx]
  · intro hx
    constructor
    · cases r <;> simp [handleFile, hx]
    · intro resp hr
      subst hr
      simp [handleFile, hx]

/-- Witness for handleFile_validation: "notes.txt" is rejected locally
with no network call; "form.docx" uploads and stores the returned
session id. -/
theorem handleFile_validation_witness :
    handleFile "notes.txt" (Except.error "x") initialState
        = (setError (some "Please upload a .docx file") initialState, false)
    ∧ (handleFile "form.docx" (Except.ok ⟨"abc123", "ok"⟩) initialState).1
        = setUploading false
            (setSession "abc123" (setError none (setUploading true initialState))) :=
  ⟨(handleFile_validation "notes.txt" (Except.error "x") initialState).1
      (by decide),
    ((handleFile_validation "form.docx" (Except.ok ⟨"abc123", "ok"⟩)
        initialState).2 (by decide)).2 ⟨"abc123", "ok"⟩ rfl⟩

/-! ## Claims about the streaming event consumer -/

/-- C7: a stream payload that fails to parse as JSON, and a parsed
payload whose type is none of "message", "done", "error", leave the
whole component state — in particular every store field — unchanged. -/
theorem unknown_payload_ignored (c : ConsumerState) (freshId : String)
    (now : Nat) (d : EventData) (hm : ¬ (d.type = "message"))
    (hd : ¬ (d.type = "done")) (he : ¬ (d.type = "error")) :
    handleStreamEvent none freshId now c = c
    ∧ handleStreamEvent (some d) freshId now c = c := by
  constructor
  · rfl
  · simp [handleStreamEvent, hm, hd, he]

/-- Witness for unknown_payload_ignored on a keepalive-style payload. -/
theorem unknown_payload_ignored_witness :
    handleStreamEvent none "m1" 0 initialConsumer = initialConsumer
    ∧ handleStreamEvent (some ⟨"ping", some "x", false⟩) "m1" 0 initialConsumer
        = initialConsumer :=
  unknown_payload_ignored initialConsumer "m1" 0 ⟨"ping", some "x", false⟩
    (by decide) (by decide) (by decide)

theorem connectSSE_of_none (c : ConsumerState)
    (hs : c.store.sessionId = none) : connectSSE c = c := by
  simp [connectSSE, hs]

theorem closeCurrent_opens (c : ConsumerState) :
    (closeCurrent c).opens = c.opens := by
  cases he : c.eventSource <;> simp [closeCurrent, he]

theorem reconnect_effect (c : ConsumerState) (sid : String) (h : StreamHandle)
    (hs : c.store.sessionId = some sid) (hne : ¬ (sid = ""))
    (he : c.eventSource = some h) :
    (reconnectSSE c).store = setConnected true c.store
    ∧ h.hid ∈ (reconnectSSE c).closed
    ∧ (reconnectSSE c).closed = c.closed ++ [h.hid]
    ∧ (reconnectSSE c).eventSource = some ⟨c.nextHid, sid⟩
    ∧ (reconnectSSE c).opens = c.opens ++ [⟨c.nextHid, sid⟩] := by
  rw [reconnectSSE_of_truthy c sid hs hne]
  have hcc : closeCurrent c = { c with closed := c.closed ++ [h.hid] } := by
    simp [closeCurrent, he]
  rw [hcc, connectSSE_of_truthy _ sid (by simpa using hs) hne]
  exact ⟨rfl, by simp, rfl, rfl, rfl⟩

theorem reconnect_opens (c : ConsumerState) (sid : String)
    (hs : c.store.sessionId = some sid) (hne : ¬ (sid = "")) :
    (reconnectSSE c).opens = c.opens ++ [⟨c.nextHid, sid⟩]
    ∧ (reconnectSSE c).eventSource = some ⟨c.nextHid, sid⟩ := by
  rw [reconnectSSE_of_truthy c sid hs hne]
  have h1 : (closeCurrent c).store.sessionId = some sid := by
    rw [closeCurrent_store]; exact hs
  rw [connectSSE_of_truthy _ sid h1 hne]
  constructor
  · cases he : c.eventSource <;> simp [closeCurrent, he]
  · cases he : c.eventSource <;> simp [closeCurrent, he]

theorem reconnect_closes (c : ConsumerState) (h : StreamHandle)
    (hev : c.eventSource = some h) : h.hid ∈ (reconnectSSE c).closed := by
  cases hs : c.store.sessionId with
  | none => rw [reconnectSSE_of_none c hs]; exact closeCurrent_closes c h hev
  | some sid =>
      by_cases hemp : sid = ""
      · subst hemp
        rw [reconnectSSE_of_empty c hs]
        exact closeCurrent_closes c h hev
      · rw [reconnectSSE_of_truthy c sid hs hemp]
        have h1 : (closeCurrent c).store.sessionId = some sid := by
          rw [closeCurrent_store]; exact hs
        rw [connectSSE_of_truthy _ sid h1 hemp]
        exact closeCurrent_closes c h hev

theorem handleStreamEvent_sessionId (d : Option EventData) (freshId : String)
    (now : Nat) (c : ConsumerState) :
    (handleStreamEvent d freshId now c).store.sessionId
        = c.store.sessionId := by
  cases d with
  | none => rfl
  | some data =>
      by_cases h1 : data.type = "message" ∧ contentTruthy data.content = true
      · simp [handleStreamEvent, h1, addMessage]
      · by_cases h2 : data.type = "done"
        · by_cases h3 : data.is_complete = true
          · have hred : handleStreamEvent (some data) freshId now c
                = reconnectSSE { c with store := setComplete true c.store } := by
              simp [handleStreamEvent, h1, h2, h3]
            rw [hred, reconnectSSE_sessionId]
            rfl
          · have hb : data.is_complete = false := by simpa using h3
            have hred : handleStreamEvent (some data) freshId now c
                = reconnectSSE c := by
              simp [handleStreamEvent, h1, h2, hb]
            rw [hred, reconnectSSE_sessionId]
        · by_cases h4 : data.type = "error"
          · simp [handleStreamEvent, h1, h2, h4, setError]
          · simp [handleStreamEvent, h1, h2, h4]

theorem inv_of_ne (c : ConsumerState) (hn : c.store.sessionId ≠ none) :
    Inv c :=
  ⟨fun _ => hn, fun _ _ _ => hn⟩

theorem no_live_after_close (c : ConsumerState) (h : StreamHandle)
    (hev : (closeCurrent c).eventSource = some h)
    (hnc : h.hid ∉ (closeCurrent c).closed) : False := by
  rw [closeCurrent_eventSource] at hev
  exact hnc (closeCurrent_closes c h hev)

theorem inv_connectSSE (c : ConsumerState) (ih : Inv c) :
    Inv (connectSSE c) := by
  cases hs : c.store.sessionId with
  | none => rw [connectSSE_of_none c hs]; exact ih
  | some sid =>
      by_cases hemp : sid = ""
      · subst hemp
        rw [connectSSE_of_empty c hs]
        exact ih
      · refine inv_of_ne _ ?_
        rw [connectSSE_sessionId, hs]
        simp

theorem inv_reconnectSSE (c : ConsumerState) (ih : Inv c) :
    Inv (reconnectSSE c) := by
  cases hs : c.store.sessionId with
  | some sid =>
      refine inv_of_ne _ ?_
      rw [reconnectSSE_sessionId, hs]
      simp
  | none =>
      rw [reconnectSSE_of_none c hs]
      constructor
      · intro hic
        rw [closeCurrent_store] at hic
        exact absurd hs (ih.1 hic)
      · intro h hev hnc
        exact (no_live_after_close c h hev hnc).elim

theorem reachable_inv (c : ConsumerState) (hr : Reachable c) : Inv c := by
  induction hr with
  | init =>
      constructor
      · intro hic; exact absurd hic (by decide)
      · intro h hev _; exact nomatch hev
  | uploadBegin hr ih => exact ih
  | uploadOk sid hr ih =>
      exact inv_of_ne _ (by simp [uploadFinishOk, setUploading, setSession])
  | uploadErr e hr ih => exact ih
  | effectConnect hr hev ih => exact inv_connectSSE _ ih
  | streamEvt d freshId now h hr hev hnc ih =>
      exact inv_of_ne _
        (by rw [handleStreamEvent_sessionId]; exact ih.2 h hev hnc)
  | streamErr h hr hev hnc ih => exact ih
  | streamOpen h hr hev hnc ih => exact ih
  | timer hr hne ih => exact inv_reconnectSSE _ ih
  | submit msg freshId now hr hmsg hsid ih => exact ih
  | sendFail e hr ih => exact ih
  | dismiss hr ih => exact ih
  | newSession hr ih =>
      constructor
      · intro hic
        exact absurd hic (by simp [handleNewSession, reset])
      · intro h hev hnc
        exact (no_live_after_close _ h hev hnc).elim

/-- C2: in every reachable component state, isComplete is never true
while sessionId is null. -/
theorem complete_needs_session (c : ConsumerState) (hr : Reachable c)
    (hn : c.store.sessionId = none) : c.store.isComplete = false := by
  cases hb : c.store.isComplete with
  | false => rfl
  | true => exact absurd hn ((reachable_inv c hr).1 hb)

/-- Witness for complete_needs_session at the initial component state. -/
theorem complete_needs_session_witness :
    initialConsumer.store.isComplete = false :=
  complete_needs_session initialConsumer Reachable.init rfl

/-- C1: a done stream event received while a session id is set (set in
the program's own sense: truthy, i.e. non-null and non-empty, which is
what the reconnect guard "if ($session.sessionId)" tests) makes
isComplete true exactly when is_complete is true (it is left unchanged
otherwise), and in the same handler invocation — before any further
event can be processed — the current handle is closed and exactly one
new handle is opened for the same session id and becomes the current
one. -/
theorem done_event_reconnects (c : ConsumerState) (sid : String)
    (h : StreamHandle) (content : Option String) (b : Bool)
    (freshId : String) (now : Nat)
    (hs : c.store.sessionId = some sid) (hne : ¬ (sid = ""))
    (he : c.eventSource = some h) :
    (handleStreamEvent (some ⟨"done", content, b⟩) freshId now c).store.isComplete
        = (b || c.store.isComplete)
    ∧ (handleStreamEvent (some ⟨"done", content, b⟩) freshId now c).store.sessionId
        = some sid
    ∧ h.hid ∈ (handleStreamEvent (some ⟨"done", content, b⟩) freshId now c).closed
    ∧ (handleStreamEvent (some ⟨"done", content, b⟩) freshId now c).eventSource
        = some ⟨c.nextHid, sid⟩
    ∧ (handleStreamEvent (some ⟨"done", content, b⟩) freshId now c).opens
        = c.opens ++ [⟨c.nextHid, sid⟩] := by
  cases b with
  | false =>
      have hred : handleStreamEvent (some ⟨"done", content, false⟩) freshId now c
          = reconnectSSE c := by
        simp [handleStreamEvent]
      obtain ⟨e1, e2, e3, e4, e5⟩ := reconnect_effect c sid h hs hne he
      rw [hred]
      refine ⟨?_, ?_, ?_, e4, e5⟩
      · rw [e1]; simp [setConnected]
      · rw [e1]; simp [setConnected, hs]
      · rw [e3]; simp
  | true =>
      have hred : handleStreamEvent (some ⟨"done", content, true⟩) freshId now c
          = reconnectSSE { c with store := setComplete true c.store } := by
        simp [handleStreamEvent]
      have hs1 : ({ c with store := setComplete true c.store } :
          ConsumerState).store.sessionId = some sid := by
        simpa [setComplete] using hs
      have he1 : ({ c with store := setComplete true c.store } :
          ConsumerState).eventSource = some h := he
      obtain ⟨e1, e2, e3, e4, e5⟩ := reconnect_effect _ sid h hs1 hne he1
      rw [hred]
      refine ⟨?_, ?_, ?_, e4, e5⟩
      · rw [e1]; simp [setConnected, setComplete]
      · rw [e1]; simp [setConnected, setComplete, hs]
      · rw [e3]; simp

/-- Witness for done_event_reconnects right after the first connect. -/
theorem done_event_reconnects_witness :
    (handleStreamEvent (some ⟨"done", none, true⟩) "m1" 7
        connectedOnce).store.isComplete = true
    ∧ (handleStreamEvent (some ⟨"done", none, true⟩) "m1" 7
        connectedOnce).opens = connectedOnce.opens ++ [⟨1, "s"⟩] := by
  have h := done_event_reconnects connectedOnce "s" ⟨0, "s"⟩ none true
    "m1" 7 rfl (by decide) rfl
  exact ⟨h.1, h.2.2.2.2⟩

/-- C3: the transport error callback sets isConnected false and
schedules exactly one reconnect timer with the fixed 2000 ms delay;
when that timer fires, the reconnect first closes the stale handle and
opens exactly one new handle if a session id is still set — truthy,
i.e. non-null and non-empty, which is what the guard
"if ($session.sessionId)" tests — at fire time, and opens no handle at
all if the session was reset in the interim (or holds the falsy empty
string). -/
theorem transport_error_retry (c c2 : ConsumerState) (sid : String) :
    (onError c).store.isConnected = false
    ∧ (onError c).pendingTimers = c.pendingTimers ++ [2000]
    ∧ (onError c).store.sessionId = c.store.sessionId
    ∧ (c2.store.sessionId = some sid → ¬ (sid = "") →
        (∀ h : StreamHandle, c2.eventSource = some h →
            h.hid ∈ (fireTimer c2).closed)
        ∧ (fireTimer c2).opens = c2.opens ++ [⟨c2.nextHid, sid⟩]
        ∧ (fireTimer c2).eventSource = some ⟨c2.nextHid, sid⟩)
    ∧ (c2.store.sessionId = none → (fireTimer c2).opens = c2.opens)
    ∧ (c2.store.sessionId = some "" → (fireTimer c2).opens = c2.opens) := by
  refine ⟨rfl, rfl, rfl, ?_, ?_, ?_⟩
  · intro hsid hne
    refine ⟨?_, ?_, ?_⟩
    · intro h hev
      exact reconnect_closes
        { c2 with pendingTimers := c2.pendingTimers.drop 1 } h hev
    · exact (reconnect_opens
        { c2 with pendingTimers := c2.pendingTimers.drop 1 } sid hsid hne).1
    · exact (reconnect_opens
        { c2 with pendingTimers := c2.pendingTimers.drop 1 } sid hsid hne).2
  · intro hnone
    show (reconnectSSE
        { c2 with pendingTimers := c2.pendingTimers.drop 1 }).opens = c2.opens
    rw [reconnectSSE_of_none
        { c2 with pendingTimers := c2.pendingTimers.drop 1 } hnone,
      closeCurrent_opens]
  · intro hemp
    show (reconnectSSE
        { c2 with pendingTimers := c2.pendingTimers.drop 1 }).opens = c2.opens
    rw [reconnectSSE_of_empty
        { c2 with pendingTimers := c2.pendingTimers.drop 1 } hemp,
      closeCurrent_opens]

/-- Witness for transport_error_retry: an error on the live connection,
one timer fire with the session still set, one with no session, and
one with the falsy empty-string session id. -/
theorem transport_error_retry_witness :
    (onError connectedOnce).store.isConnected = false
    ∧ (fireTimer connectedOnce).opens = connectedOnce.opens ++ [⟨1, "s"⟩]
    ∧ (fireTimer initialConsumer).opens = initialConsumer.opens
    ∧ (fireTimer (uploadFinishOk "" initialConsumer)).opens
        = (uploadFinishOk "" initialConsumer).opens := by
  have h1 := transport_error_retry connectedOnce connectedOnce "s"
  have h2 := transport_error_retry initialConsumer initialConsumer "s"
  have h3 := transport_error_retry initialConsumer
    (uploadFinishOk "" initialConsumer) ""
  exact ⟨h1.1, (h1.2.2.2.1 rfl (by decide)).2.1, h2.2.2.2.2.1 rfl,
    h3.2.2.2.2.2 rfl⟩

/-- C4 counterexample: the state reached by a successful upload of
session "s" followed by the connect effect is reachable, has
isConnected already true, and has seen zero transport open signals —
so isConnected is set true before the underlying connection has
reported open. -/
theorem connected_before_open_counterexample :
    Reachable connectedOnce
    ∧ connectedOnce.store.isConnected = true
    ∧ connectedOnce.openSignals = 0 := by
  refine ⟨?_, rfl, rfl⟩
  show Reachable (connectSSE (uploadFinishOk "s" initialConsumer))
  exact Reachable.effectConnect (Reachable.uploadOk "s" Reachable.init) rfl

/-- C4 (amended): isConnected is set true immediately when connectSSE
creates a new stream handle, which happens exactly when the session id
is truthy (non-null and non-empty — the guard "if (!sessionId) return"
makes connectSSE a no-op otherwise); this happens at
connection-initiation time rather than on the transport's open signal:
no open handler is registered, so the open signal itself leaves the
store unchanged, and the transport error callback sets isConnected
false. -/
theorem connected_set_at_connect (c c3 : ConsumerState) (sid : String)
    (hs : c.store.sessionId = some sid) (hne : ¬ (sid = "")) :
    (connectSSE c).store.isConnected = true
    ∧ (connectSSE c).openSignals = c.openSignals
    ∧ (∀ c4 : ConsumerState, c4.store.sessionId = some "" →
        connectSSE c4 = c4)
    ∧ (fireOpen c3).store = c3.store
    ∧ (onError c3).store.isConnected = false := by
  rw [connectSSE_of_truthy c sid hs hne]
  exact ⟨rfl, rfl, fun c4 h4 => connectSSE_of_empty c4 h4, rfl, rfl⟩

/-- Witness for connected_set_at_connect at the first connect after an
upload. -/
theorem connected_set_at_connect_witness :
    (connectSSE (uploadFinishOk "s" initialConsumer)).store.isConnected = true
    ∧ (fireOpen initialConsumer).store = initialConsumer.store
    ∧ connectSSE (uploadFinishOk "" initialConsumer)
        = uploadFinishOk "" initialConsumer := by
  have h := connected_set_at_connect (uploadFinishOk "s" initialConsumer)
    initialConsumer "s" rfl (by decide)
  exact ⟨h.1, h.2.2.2.1, h.2.2.1 (uploadFinishOk "" initialConsumer) rfl⟩

end WordFormClient
